import Mathlib

/-!
Verification development for the peer-to-peer Channel protocol of the
`assistant` repository (`src/assistant/social_system_framework/__init__.py`)
and its identifier/error utilities (`src/assistant/ipc/utils.py`).

The Python source is shallowly embedded: pure functions become Lean
functions, mutable object state becomes explicit state passing over a
`Channel` record, Python exceptions become an `Except PyExn` result, and
machine integers become `Nat` (the source never truncates; hex widths are
handled explicitly).  The standard-library `json.dumps`/`json.loads` pair
is modelled semantically: a byte string is represented by the JSON value it
parses to, or by an opaque invalid-input token (`Wire.bad`) when it is not
well-formed JSON, so that `loads (dumps j) = j` holds by construction, which
is the stdlib guarantee the source relies on.  The ZeroMQ transport is the
external collaborator: socket creation, bind, connect and close are assumed
to succeed, a successful `send` is recorded as the frame value produced, and
each `recv` consumes an input parameter of the modelled method.
-/

/-- The character for one hex digit, lowercase, as produced by Python's
`format(n, 'x')` (digits `0`-`9` then `a`-`f`). -/
def hexChar (n : Nat) : Char :=
  if n < 10 then Char.ofNat (48 + n) else Char.ofNat (87 + n)

/-- The numeric value of one hex digit as accepted by Python's `int(s, 16)`:
decimal digits, lowercase and uppercase `a`-`f`.  Any other character makes
`int` raise `ValueError`. -/
def hexVal (c : Char) : Option Nat :=
  if 48 ≤ c.toNat ∧ c.toNat ≤ 57 then some (c.toNat - 48)
  else if 97 ≤ c.toNat ∧ c.toNat ≤ 102 then some (c.toNat - 87)
  else if 65 ≤ c.toNat ∧ c.toNat ≤ 70 then some (c.toNat - 55)
  else none

/-- Hex digits of `n`, least significant first; empty for `0`.  Helper for the
embedding of Python's `format(n, 'x')`. -/
def hexRev (n : Nat) : List Char :=
  if h : n = 0 then [] else hexChar (n % 16) :: hexRev (n / 16)
decreasing_by exact Nat.div_lt_self (Nat.pos_of_ne_zero h) (by norm_num)

/-- Hex digits of `n`, most significant first, `['0']` for `0`: the digit
sequence produced by Python's `format(n, 'x')`. -/
def toHexDigits (n : Nat) : List Char :=
  if n = 0 then ['0'] else (hexRev n).reverse

/-- Python's `f'{n:016x}'`: the hex digits of `n`, left padded with `'0'` to
width 16 (longer than 16 characters when `n ≥ 16^16`; never truncated). -/
def py016x (n : Nat) : List Char :=
  List.replicate (16 - (toHexDigits n).length) '0' ++ toHexDigits n

/-- Accumulator pass of Python's `int(s, 16)` over the digit characters. -/
def parseHexAux (acc : Nat) : List Char → Option Nat
  | [] => some acc
  | c :: cs =>
    match hexVal c with
    | none => none
    | some d => parseHexAux (16 * acc + d) cs

/-- Python's `int(s, 16)` on a plain digit string: `none` models the
`ValueError` raised on an empty string or any non-hex-digit character. -/
def pyIntHex (cs : List Char) : Option Nat :=
  if cs.isEmpty then none else parseHexAux 0 cs

/-- `_id` (social_system_framework/__init__.py lines 163-184): the pair of a
64-bit session identifier and a per-session object identifier. -/
structure MsgId where
  session : Nat
  object : Nat
deriving DecidableEq

/-- `_id.to_hex` (line 170): `f'{self.session:016x}{self.object:016x}'`,
i.e. the concatenation of the two zero-padded hex halves.  Python string
values are represented as their character lists so that slicing is
`List.take`/`List.drop`. -/
def MsgId.to_hex (i : MsgId) : List Char :=
  py016x i.session ++ py016x i.object

/-- `_id.increment` (line 182). -/
def MsgId.increment (i : MsgId) : MsgId :=
  { session := i.session, object := i.object + 1 }

/-- `_MessageKind` (lines 186-201): the seven members actually defined by the
enum.  Call sites additionally reference `JOIN`, `LEAVE`, `TOPIC_UNREGISTER`
and `TOPIC_MESSAGE`, none of which are members. -/
inductive MessageKind where
  | SESSION_JOIN | SESSION_LEAVE | TOPIC_REGISTER | TOPIC_DEREGISTER
  | APPLICATION | ACKNOWLEDGE | ERROR
deriving DecidableEq

/-- Python's `member.name` for `_MessageKind`. -/
def MessageKind.pyName : MessageKind → String
  | .SESSION_JOIN => "SESSION_JOIN"
  | .SESSION_LEAVE => "SESSION_LEAVE"
  | .TOPIC_REGISTER => "TOPIC_REGISTER"
  | .TOPIC_DEREGISTER => "TOPIC_DEREGISTER"
  | .APPLICATION => "APPLICATION"
  | .ACKNOWLEDGE => "ACKNOWLEDGE"
  | .ERROR => "ERROR"

/-- Python's `_MessageKind[name]` member lookup (`EnumMeta.__getitem__`):
`some` for the seven defined member names, `none` (a `KeyError`) otherwise. -/
def MessageKind.fromName : String → Option MessageKind
  | "SESSION_JOIN" => some .SESSION_JOIN
  | "SESSION_LEAVE" => some .SESSION_LEAVE
  | "TOPIC_REGISTER" => some .TOPIC_REGISTER
  | "TOPIC_DEREGISTER" => some .TOPIC_DEREGISTER
  | "APPLICATION" => some .APPLICATION
  | "ACKNOWLEDGE" => some .ACKNOWLEDGE
  | "ERROR" => some .ERROR
  | _ => none

/-- JSON values, covering everything the source ever serializes: `None`,
strings, integers, arrays and string-keyed objects. -/
inductive JValue where
  | null : JValue
  | str : String → JValue
  | num : Int → JValue
  | arr : List JValue → JValue
  | obj : List (String × JValue) → JValue

/-- `_Message` (lines 203-228): the wire unit.  `content` is stored exactly as
parsed (the codec validates nothing about its shape), so it is a raw JSON
value; a `dict[str, str]` is an `obj` of string pairs and `None` is `null`. -/
structure Message where
  id : MsgId
  kind : MessageKind
  content : JValue

/-- Python exception outcomes observable from the embedded code.  Constructors
mirror the concrete exception classes the source can raise: the built-in
`TypeError`, `AttributeError` (with the missing attribute name), `KeyError`
(with the missing key), `ValueError`, `AssertionError` and
`json.JSONDecodeError`; the channel errors of
`social_system_framework/__init__.py` — `WrongStateError`,
`UnsupportedRoleError`, `BadPeerError` (whose constructor is also called with
a plain string at lines 358, 369 and 412) and its refinements
`OutOfOrderError` and `UnknownSessionError`, which carry the offending
message (`BadPeerError.msg`); and the three `ipc/utils.py` exceptions
(`NetworkConnectivityError`, `MessageFormatError`, `ProtocolStateError`,
each carrying the optional message string).  An attribute read of a field
that was never assigned raises `AttributeError` in Python; the embedding
conflates an unset numeric field with `None` and models arithmetic or
formatting on it as the `TypeError` Python raises for `None`. -/
inductive PyExn where
  | typeError : PyExn
  | attributeError : String → PyExn
  | keyError : String → PyExn
  | valueError : PyExn
  | jsonDecodeError : PyExn
  | assertionError : PyExn
  | wrongStateError : PyExn
  | unsupportedRoleError : PyExn
  | badPeerError : String → PyExn
  | outOfOrderError : Message → PyExn
  | unknownSessionError : Message → PyExn
  | networkConnectivityError : Option String → PyExn
  | messageFormatError : Option String → PyExn
  | protocolStateError : Option String → PyExn

/-- `_id.from_hex` (line 174): `int(data[:16], 16)` and `int(data[16:], 16)`;
a failing `int` raises `ValueError`. -/
def MsgId.from_hex (data : List Char) : Except PyExn MsgId :=
  match pyIntHex (data.take 16), pyIntHex (data.drop 16) with
  | some s, some o => .ok { session := s, object := o }
  | _, _ => .error .valueError

/-- Python attribute access `_MessageKind.<name>`: the member for the seven
defined names, `AttributeError` for any other name.  The source refers to
`_MessageKind.JOIN`, `_MessageKind.LEAVE`, `_MessageKind.TOPIC_UNREGISTER`
and `_MessageKind.TOPIC_MESSAGE` (lines 325, 397, 406, 426, 440, 445, 466),
which all fall in the `AttributeError` case. -/
def MessageKind.attr (name : String) : Except PyExn MessageKind :=
  match MessageKind.fromName name with
  | some k => .ok k
  | none => .error (.attributeError name)

/-- A byte string as seen by `json.loads`: either not well-formed JSON
(`bad`, carrying the raw text) or well-formed with a parsed value. -/
inductive Wire where
  | bad : String → Wire
  | json : JValue → Wire

/-- `json.dumps` of a JSON-serializable value, at the semantic level. -/
def dumps (j : JValue) : Wire := .json j

/-- `json.loads`: a malformed byte string raises `json.JSONDecodeError`. -/
def loads : Wire → Except PyExn JValue
  | .bad _ => .error .jsonDecodeError
  | .json j => .ok j

/-- Python subscript `data[key]` with a string key on a parsed JSON value:
`KeyError` when the key is absent from a dict, `TypeError` when `data` is not
a dict at all (string, list, int and `None` subscripts with a string key all
raise `TypeError`). -/
def jGet (j : JValue) (key : String) : Except PyExn JValue :=
  match j with
  | .obj fields =>
    match fields.find? (fun p => p.1 = key) with
    | some p => .ok p.2
    | none => .error (.keyError key)
  | _ => .error .typeError

/-- Coercion of `data['id']` to the string consumed by `_id.from_hex`: a
non-string value makes the slicing/`int` pipeline raise `TypeError` (slicing
`None` or an int raises directly; a sliced list reaches `int(list, 16)` which
also raises `TypeError`). -/
def asIdStr : JValue → Except PyExn (List Char)
  | .str s => .ok s.toList
  | _ => .error .typeError

/-- `_MessageKind[data['kind']]` on the parsed kind field: a string is looked
up among the member names (`KeyError` if unknown), `None` and numbers are
hashable non-members (`KeyError`), unhashable lists/dicts raise `TypeError`. -/
def enumGetItem : JValue → Except PyExn MessageKind
  | .str s =>
    match MessageKind.fromName s with
    | some k => .ok k
    | none => .error (.keyError s)
  | .null => .error (.keyError "None")
  | .num _ => .error (.keyError "int")
  | .arr _ => .error .typeError
  | .obj _ => .error .typeError

/-- `_Message.to_bytes` (lines 212-218): `json.dumps` of the three-field
object with the 32-hex-character id, the kind name and the content. -/
def Message.to_bytes (m : Message) : Wire :=
  dumps (.obj [("id", .str (String.mk m.id.to_hex)),
               ("kind", .str m.kind.pyName),
               ("content", m.content)])

/-- `_Message.from_bytes` (lines 220-228): `json.loads`, then the keyword
arguments are evaluated left to right — `_id.from_hex(data['id'])`,
`_MessageKind[data['kind']]`, `data['content']` — with every failure
propagating as the underlying generic exception (there is no try/except and
`MessageFormatError` is neither imported nor raised in this module). -/
def Message.from_bytes (w : Wire) : Except PyExn Message :=
  match loads w with
  | .error e => .error e
  | .ok data =>
    match jGet data "id" with
    | .error e => .error e
    | .ok idv =>
      match asIdStr idv with
      | .error e => .error e
      | .ok idChars =>
        match MsgId.from_hex idChars with
        | .error e => .error e
        | .ok mid =>
          match jGet data "kind" with
          | .error e => .error e
          | .ok kv =>
            match enumGetItem kv with
            | .error e => .error e
            | .ok kind =>
              match jGet data "content" with
              | .error e => .error e
              | .ok content => .ok { id := mid, kind := kind, content := content }

/-- Whether a raised exception is `MessageFormatError`. -/
def isMFE : PyExn → Bool
  | .messageFormatError _ => true
  | _ => false

/-- Whether a deserialization outcome is a raised `MessageFormatError`. -/
def resultIsMFE : Except PyExn Message → Bool
  | .error e => isMFE e
  | .ok _ => false

/-- Whether a JSON value is a flat string-to-string mapping or `None` — the
`content` shapes named by the round-trip property. -/
def contentOK : JValue → Bool
  | .null => true
  | .obj fields => fields.all (fun p => match p.2 with | .str _ => true | _ => false)
  | _ => false

/-- `CHANNEL_STATE` (lines 46-51). -/
inductive CHANNEL_STATE where
  | OFFLINE | SETUP | ONLINE | TEARDOWN
deriving DecidableEq

/-- `CHANNEL_ROLE` (lines 53-56). -/
inductive CHANNEL_ROLE where
  | SERVER | CLIENT
deriving DecidableEq

/-- `_topic` (lines 58-62): a registered topic name with its inbox and outbox
queues; the queues are modelled by their presence only, since no claim-relevant
code path ever reads them. -/
structure TopicRec where
  topic : String
  inbox : Bool
  outbox : Bool
deriving DecidableEq

/-- `Channel` (lines 230-253): the mutable dataclass state.  `socketInit`
models whether `self.__socket` currently holds an open socket.  The numeric
identity fields are declared `init=False` with no default, so they start
unset; `none` covers both the unset and the explicit-`None` states. -/
structure Channel where
  url : String
  role : CHANNEL_ROLE
  state : CHANNEL_STATE
  topics : List TopicRec
  socketInit : Bool
  session_id : Option Nat
  last_message_id : Option Nat
  self_id : Nat
  peer_id : Option Nat

/-- The Python expression `x in (Y)` at lines 283, 286, 301, 304 and 310,
where `Y` is a single `CHANNEL_STATE` member: without a trailing comma the
parenthesised expression is the member itself, not a 1-tuple, and a
membership test whose right operand is an enum member (which defines neither
`__contains__` nor `__iter__`) raises `TypeError` regardless of the left
operand. -/
def stateIn (_x _y : CHANNEL_STATE) : Except PyExn Bool :=
  .error .typeError

/-- `Channel.__send_message_to_peer` (lines 277-297).  Every call raises
`TypeError` at line 283 (`if self.state in (CHANNEL_STATE.OFFLINE):`, see
`stateIn`); the remaining statements are translated for reference: the state
assert of line 287, the increment of `__last_message_id` (a `None` value
would make `None + 1` raise `TypeError`; a `None` session id would make the
f-string in `to_hex` raise `TypeError` at serialization), and the frame
construction and socket send, returning the updated channel and the frame
sent. -/
def Channel.send_message_to_peer (c : Channel) (kind : MessageKind)
    (content : JValue) : Except PyExn (Channel × Message) :=
  match stateIn c.state CHANNEL_STATE.OFFLINE with
  | .error e => .error e
  | .ok true => .error .wrongStateError
  | .ok false =>
    match stateIn c.state CHANNEL_STATE.ONLINE with
    | .error e => .error e
    | .ok online =>
      if online && !(c.session_id.isSome && c.last_message_id.isSome) then
        .error .assertionError
      else
        match c.last_message_id, c.session_id with
        | some last, some sess =>
          .ok ({ c with last_message_id := some (last + 1) },
               { id := { session := sess, object := last + 1 },
                 kind := kind, content := content })
        | _, _ => .error .typeError

/-- `Channel.__recv_message_from_peer` (lines 299-316).  Every call raises
`TypeError` at line 301 (`if self.state in (CHANNEL_STATE.OFFLINE):`, see
`stateIn`) before the socket is read; the remaining statements — the ONLINE
assert, `_Message.from_bytes` on the received frame, and the session and
ordering checks of lines 310-314 — are translated for reference.  The method
sends nothing and assigns no attribute on any path. -/
def Channel.recv_message_from_peer (c : Channel) (raw : Wire) :
    Except PyExn Message :=
  match stateIn c.state CHANNEL_STATE.OFFLINE with
  | .error e => .error e
  | .ok true => .error .wrongStateError
  | .ok false =>
    match stateIn c.state CHANNEL_STATE.ONLINE with
    | .error e => .error e
    | .ok online1 =>
      if online1 && !(c.session_id.isSome && c.last_message_id.isSome) then
        .error .assertionError
      else
        match Message.from_bytes raw with
        | .error e => .error e
        | .ok peer_msg =>
          match stateIn c.state CHANNEL_STATE.ONLINE with
          | .error e => .error e
          | .ok online2 =>
            if online2 then
              if some peer_msg.id.session ≠ c.session_id then
                .error (.unknownSessionError peer_msg)
              else if c.last_message_id.map (· + 1) ≠ some peer_msg.id.object then
                .error (.outOfOrderError peer_msg)
              else .ok peer_msg
            else .ok peer_msg

/-- `Channel.__send_message_to_peer_and_recv_ack` (lines 318-370).  Every
call raises `AttributeError` at line 325: the tuple
`(_MessageKind.JOIN, _MessageKind.LEAVE, _MessageKind.TOPIC_REGISTER,
_MessageKind.TOPIC_UNREGISTER, _MessageKind.TOPIC_MESSAGE)` evaluates its
elements left to right and `JOIN` is not a member — before anything is sent.
The rest is translated for reference: the send, the receive with the
`except BadPeerError` handler of lines 330-354 (which sends an `ERROR` frame
describing the violation, then *continues* with the offending message as the
response instead of re-raising), and the reply-kind check of lines 356-369.
On success the result carries the updated channel, the frames sent during
the call, and the response.  In the unreachable error branches the
channel state threaded up to that point is dropped, as `Except` carries no
state (every such branch is dead: the first line always raises). -/
def Channel.send_message_to_peer_and_recv_ack (c : Channel)
    (kind : MessageKind) (content : JValue) (raw : Wire) :
    Except PyExn (Channel × List Message × Message) :=
  match MessageKind.attr "JOIN" with
  | .error e => .error e
  | .ok kJOIN =>
    match MessageKind.attr "LEAVE" with
    | .error e => .error e
    | .ok kLEAVE =>
      match MessageKind.attr "TOPIC_UNREGISTER" with
      | .error e => .error e
      | .ok kTUNREG =>
        match MessageKind.attr "TOPIC_MESSAGE" with
        | .error e => .error e
        | .ok kTMSG =>
          let valid : List MessageKind :=
            if kind ∈ [kJOIN, kLEAVE, MessageKind.TOPIC_REGISTER, kTUNREG, kTMSG]
            then [MessageKind.ACKNOWLEDGE] else []
          match c.send_message_to_peer kind content with
          | .error e => .error e
          | .ok (c1, sentReq) =>
            match
              ((match c1.recv_message_from_peer raw with
               | .ok resp => Except.ok (c1, [sentReq], resp)
               | .error (.outOfOrderError m) =>
                 match c1.last_message_id with
                 | none => .error .typeError
                 | some l =>
                   match c1.send_message_to_peer .ERROR (.obj
                     [("error", .str "Peer sent an out of order message"),
                      ("got", .num m.id.object),
                      ("expected", .num ((l : Int) + 1)),
                      ("id", .arr [.num m.id.session, .num m.id.object])]) with
                   | .error e => .error e
                   | .ok (c2, sentErr) => .ok (c2, [sentReq, sentErr], m)
               | .error (.unknownSessionError m) =>
                 match c1.session_id with
                 | none => .error .typeError
                 | some s =>
                   match c1.send_message_to_peer .ERROR (.obj
                     [("error", .str "Peer sent a message for an unknown session"),
                      ("got", .num m.id.session),
                      ("expected", .num (s : Int)),
                      ("id", .arr [.num m.id.session, .num m.id.object])]) with
                   | .error e => .error e
                   | .ok (c2, sentErr) => .ok (c2, [sentReq, sentErr], m)
               | .error e => .error e) :
                 Except PyExn (Channel × List Message × Message)) with
            | .error e => .error e
            | .ok (c2, sent, response) =>
              if response.kind ∉ valid then
                if response.kind = .ERROR then
                  match jGet response.content "error" with
                  | .error e => .error e
                  | .ok _ => .error (.badPeerError "Peer sent an error message")
                else
                  match c2.send_message_to_peer .ERROR (.obj
                    [("error", .str "Peer sent an invalid response message"),
                     ("got", .str response.kind.pyName),
                     ("expected", .arr (valid.map (fun k => JValue.str k.pyName))),
                     ("id", .arr [.num response.id.session, .num response.id.object])]) with
                  | .error e => .error e
                  | .ok _ => .error (.badPeerError "Peer sent an invalid response message")
              else .ok (c2, sent, response)

/-- `Channel.setup` (lines 382-433).  The result is the channel as mutated so
far, the frames sent, and the outcome.  The SERVER branch raises `TypeError`
inside `__recv_message_from_peer` (line 301) after entering SETUP and
creating the socket; the CLIENT branch raises `AttributeError` at line 426
while evaluating the argument `_MessageKind.JOIN`, after setting
`session_id = 0` and `last_message_id = 0`.  `freshSession` is the value
`int.from_bytes(urandom(8))` would mint at line 413. -/
def Channel.setup (c : Channel) (freshSession : Nat) (raw : Wire) :
    Channel × List Message × Except PyExn Unit :=
  if c.state ≠ CHANNEL_STATE.OFFLINE then (c, [], .error .assertionError)
  else
    let c1 := { c with state := CHANNEL_STATE.SETUP, socketInit := true }
    match c.role with
    | CHANNEL_ROLE.SERVER =>
      match c1.recv_message_from_peer raw with
      | .error e => (c1, [], .error e)
      | .ok peer_msg =>
        match MessageKind.attr "JOIN" with
        | .error e => (c1, [], .error e)
        | .ok kJOIN =>
          if peer_msg.kind ≠ kJOIN then
            let c2 := { c1 with session_id := some peer_msg.id.session,
                                last_message_id := some peer_msg.id.object }
            match c2.send_message_to_peer .ERROR (.obj
              [("error", .str "Unknown Peer has sent us a message"),
               ("got", .str peer_msg.kind.pyName),
               ("expected", .arr [.str "JOIN"]),
               ("id", .str (String.mk peer_msg.id.to_hex))]) with
            | .error e => (c2, [], .error e)
            | .ok (c3, sentErr) =>
              ({ c3 with session_id := none, last_message_id := none }, [sentErr],
               .error (.badPeerError "Unknown Peer has sent us a message"))
          else
            let c2 := { c1 with session_id := some freshSession,
                                last_message_id := some 0 }
            match jGet peer_msg.content "id" with
            | .error e => (c2, [], .error e)
            | .ok idv =>
              match asIdStr idv with
              | .error e => (c2, [], .error e)
              | .ok idChars =>
                match MsgId.from_hex idChars with
                | .error e => (c2, [], .error e)
                | .ok pid =>
                  let c3 := { c2 with peer_id := some pid.object }
                  match c3.send_message_to_peer .ACKNOWLEDGE (.obj
                    [("id", .str (String.mk
                      (MsgId.to_hex ⟨freshSession, c.self_id⟩)))]) with
                  | .error e => (c3, [], .error e)
                  | .ok (c4, sentAck) =>
                    ({ c4 with state := CHANNEL_STATE.ONLINE }, [sentAck], .ok ())
    | CHANNEL_ROLE.CLIENT =>
      let c2 := { c1 with session_id := some 0, last_message_id := some 0 }
      match MessageKind.attr "JOIN" with
      | .error e => (c2, [], .error e)
      | .ok kJOIN =>
        match c2.send_message_to_peer_and_recv_ack kJOIN
          (.obj [("id", .str (String.mk (MsgId.to_hex ⟨0, c.self_id⟩)))]) raw with
        | .error e => (c2, [], .error e)
        | .ok (c3, sent, ack_msg) =>
          match jGet ack_msg.content "id" with
          | .error e => (c3, sent, .error e)
          | .ok idv =>
            match asIdStr idv with
            | .error e => (c3, sent, .error e)
            | .ok idChars =>
              match MsgId.from_hex idChars with
              | .error e => (c3, sent, .error e)
              | .ok pid =>
                ({ c3 with peer_id := some pid.object,
                           session_id := some ack_msg.id.session,
                           last_message_id := some ack_msg.id.object,
                           state := CHANNEL_STATE.ONLINE }, sent, .ok ())

/-- `Channel.teardown` (lines 435-450).  Line 437 asserts `state == ONLINE`
(an `AssertionError`, raised before any transport operation, when the channel
is in any other state).  When ONLINE, both role branches evaluate
`_MessageKind.LEAVE` (lines 440 and 445) and raise `AttributeError` after
entering TEARDOWN. -/
def Channel.teardown (c : Channel) (raw : Wire) :
    Channel × List Message × Except PyExn Unit :=
  if c.state ≠ CHANNEL_STATE.ONLINE then (c, [], .error .assertionError)
  else
    let c1 := { c with state := CHANNEL_STATE.TEARDOWN }
    match c.role with
    | CHANNEL_ROLE.SERVER =>
      match MessageKind.attr "LEAVE" with
      | .error e => (c1, [], .error e)
      | .ok kLEAVE =>
        match c1.session_id with
        | none => (c1, [], .error .typeError)
        | some s =>
          match c1.send_message_to_peer kLEAVE
            (.obj [("id", .str (String.mk (MsgId.to_hex ⟨s, c.self_id⟩)))]) with
          | .error e => (c1, [], .error e)
          | .ok (c2, sentLeave) =>
            ({ c2 with session_id := none, last_message_id := none,
                       peer_id := none, socketInit := false,
                       state := CHANNEL_STATE.OFFLINE }, [sentLeave], .ok ())
    | CHANNEL_ROLE.CLIENT =>
      match MessageKind.attr "LEAVE" with
      | .error e => (c1, [], .error e)
      | .ok kLEAVE =>
        match c1.session_id with
        | none => (c1, [], .error .typeError)
        | some s =>
          match c1.send_message_to_peer_and_recv_ack kLEAVE
            (.obj [("id", .str (String.mk (MsgId.to_hex ⟨s, c.self_id⟩)))]) raw with
          | .error e => (c1, [], .error e)
          | .ok (c2, sent, _ack) =>
            ({ c2 with session_id := none, last_message_id := none,
                       peer_id := none, socketInit := false,
                       state := CHANNEL_STATE.OFFLINE }, sent, .ok ())

/-- The duplicate check `any(t["topic"] == topic for t in self.__topics)` at
line 455: `any` over the generator for an empty list is `False` without
evaluating the body; on a nonempty list the first evaluation of `t["topic"]`
subscripts a `_topic` NamedTuple with a string and raises `TypeError`
("tuple indices must be integers"). -/
def anyTopicSubscript : List TopicRec → Except PyExn Bool
  | [] => .ok false
  | _ :: _ => .error .typeError

/-- `Channel.register` (lines 452-461): assert ONLINE, then unless the topic
is already present perform the `TOPIC_REGISTER` request/ACK exchange and
append a fresh `_topic` with new inbox and outbox queues. -/
def Channel.register (c : Channel) (topic : String) (raw : Wire) :
    Except PyExn (Channel × List Message) :=
  if c.state ≠ CHANNEL_STATE.ONLINE then .error .assertionError
  else
    match anyTopicSubscript c.topics with
    | .error e => .error e
    | .ok true => .ok (c, [])
    | .ok false =>
      match c.send_message_to_peer_and_recv_ack .TOPIC_REGISTER
        (.obj [("topic", .str topic)]) raw with
      | .error e => .error e
      | .ok (c1, sent, _ack) =>
        .ok ({ c1 with topics :=
                c1.topics ++ [{ topic := topic, inbox := true, outbox := true }] },
             sent)

/-- `Channel.publish` (lines 468-474): assert ONLINE, then
`if topic not in self.__outboxes:` — the dataclass declares no `__outboxes`
field and no statement in the class ever assigns one, so the attribute read
raises `AttributeError` (mangled name `_Channel__outboxes`) on every call. -/
def Channel.publish (c : Channel) (_topicName : String) : Except PyExn Unit :=
  if c.state ≠ CHANNEL_STATE.ONLINE then .error .assertionError
  else .error (.attributeError "_Channel__outboxes")

/-- `Channel.subscribe` (lines 476-478): assert ONLINE; the body is the bare
`...` (Ellipsis) expression, so the function returns `None` — never an inbox
queue. -/
def Channel.subscribe (c : Channel) (_topicName : String) :
    Except PyExn (Option Unit) :=
  if c.state ≠ CHANNEL_STATE.ONLINE then .error .assertionError
  else .ok none

/-- `IdGenerator` (ipc/utils.py lines 206-223): the channel id plus the sets
of already-issued session and topic identifiers, the sets as lists. -/
structure IdGenerator where
  channel_id : Nat
  used_session_ids : List Nat
  used_topic_ids : List Nat

/-- `IdGenerator.generate_peer_id` (lines 225-236):
`(channel_id << 64) | secrets.randbits(64)` — with the random 64 bits in the
low half the OR is a sum.  `randomBits` stands for the `secrets` draw. -/
def generate_peer_id (g : IdGenerator) (randomBits : Nat) : Nat :=
  g.channel_id * 2 ^ 64 + randomBits % 2 ^ 64

/-- `IdGenerator.generate_session_id` (lines 238-252).  The source loops
without bound: `while True: session_id = secrets.randbelow(1024); if
session_id not in self.used_session_ids: add and return`.  The random source
is modelled as the finite prefix `draws` of the stream of `randbelow(1024)`
results the loop consumes; `some (id, rest, used')` is a return after
consuming part of the prefix, and `none` means the loop was still running
after consuming the whole observed prefix — the source has no fuel bound and
no exhaustion case. -/
def generate_session_id : List Nat → List Nat → Option (Nat × List Nat × List Nat)
  | [], _ => none
  | d :: ds, used =>
    if d ∈ used then generate_session_id ds used else some (d, ds, d :: used)

/-- A run of `n` consecutive `generate_session_id` calls on one generator,
threading the remaining random stream and the used-id set; `some (ids, used)`
only when every one of the `n` calls returned. -/
def run_session_calls : Nat → List Nat → List Nat → Option (List Nat × List Nat)
  | 0, _, used => some ([], used)
  | n + 1, draws, used =>
    match generate_session_id draws used with
    | none => none
    | some (id, ds, used') =>
      match run_session_calls n ds used' with
      | none => none
      | some (ids, u) => some (id :: ids, u)

/-- `L7Error` (ipc/utils.py lines 271-277). -/
inductive L7Error where
  | NETWORK_CONNECTIVITY_ERROR | MESSAGE_FORMAT_ERROR | PROTOCOL_STATE_ERROR
deriving DecidableEq

/-- `handle_error` (ipc/utils.py lines 308-322): the if/elif chain raises the
exception matching the category inside the function's own `try`, and the
`except Exception` clause catches whatever was raised and only prints, so the
function always falls through and returns `None` normally. -/
def handle_error (error : L7Error) (message : Option String) :
    Except PyExn Unit :=
  let attempt : Except PyExn Unit :=
    match error with
    | .NETWORK_CONNECTIVITY_ERROR => .error (.networkConnectivityError message)
    | .MESSAGE_FORMAT_ERROR => .error (.messageFormatError message)
    | .PROTOCOL_STATE_ERROR => .error (.protocolStateError message)
  match attempt with
  | .error _ => .ok ()
  | .ok u => .ok u

/-! ### Lemmas about the hex codec -/

theorem hexVal_hexChar (d : Nat) (h : d < 16) : hexVal (hexChar d) = some d := by
  interval_cases d <;> decide

theorem parseHexAux_append (xs : List Char) : ∀ (a : Nat) (ys : List Char),
    parseHexAux a (xs ++ ys) =
      match parseHexAux a xs with
      | none => none
      | some a' => parseHexAux a' ys := by
  induction xs with
  | nil => intro a ys; rfl
  | cons c cs ih =>
    intro a ys
    show parseHexAux a (c :: (cs ++ ys)) = _
    simp only [parseHexAux]
    cases hexVal c with
    | none => rfl
    | some d => exact ih _ _

theorem parseHexAux_hexRev (n : Nat) : ∀ a : Nat,
    parseHexAux a (hexRev n).reverse = some (a * 16 ^ (hexRev n).length + n) := by
  induction n using Nat.strong_induction_on with
  | _ n ih =>
    intro a
    by_cases h : n = 0
    · subst h
      rw [hexRev]
      simp [parseHexAux]
    · rw [hexRev, dif_neg h, List.reverse_cons, parseHexAux_append,
          ih (n / 16) (Nat.div_lt_self (Nat.pos_of_ne_zero h) (by norm_num)) a]
      simp only [parseHexAux, hexVal_hexChar (n % 16) (Nat.mod_lt _ (by norm_num))]
      congr 1
      rw [List.length_cons, pow_succ]
      have hmod := Nat.div_add_mod n 16
      ring_nf
      omega

theorem parseHexAux_zeros (k : Nat) (cs : List Char) :
    parseHexAux 0 (List.replicate k '0' ++ cs) = parseHexAux 0 cs := by
  induction k with
  | zero => rfl
  | succ k ih =>
    have h0 : hexVal '0' = some 0 := by decide
    simpa [List.replicate_succ, parseHexAux, h0] using ih

theorem hexRev_length_le (w : Nat) : ∀ n : Nat, n < 16 ^ w → (hexRev n).length ≤ w := by
  induction w with
  | zero =>
    intro n hn
    interval_cases n
    rw [hexRev]
    simp
  | succ w ih =>
    intro n hn
    by_cases h : n = 0
    · subst h; rw [hexRev]; simp
    · rw [hexRev, dif_neg h, List.length_cons]
      have hdiv : n / 16 < 16 ^ w := by
        rw [Nat.div_lt_iff_lt_mul (by norm_num : (0 : Nat) < 16)]
        calc n < 16 ^ (w + 1) := hn
        _ = 16 ^ w * 16 := by rw [pow_succ]
      exact Nat.succ_le_succ (ih (n / 16) hdiv)

theorem toHexDigits_length_le {n w : Nat} (hw : 1 ≤ w) (h : n < 16 ^ w) :
    (toHexDigits n).length ≤ w := by
  unfold toHexDigits
  by_cases h0 : n = 0
  · simp [h0, hw]
  · rw [if_neg h0, List.length_reverse]
    exact hexRev_length_le w n h

theorem py016x_length (n : Nat) (h : n < 16 ^ 16) : (py016x n).length = 16 := by
  have hle := toHexDigits_length_le (by norm_num) h
  unfold py016x
  rw [List.length_append, List.length_replicate]
  omega

theorem pyIntHex_py016x (n : Nat) (h : n < 16 ^ 16) : pyIntHex (py016x n) = some n := by
  have hlen : (py016x n).length = 16 := py016x_length n h
  have hne : (py016x n).isEmpty = false := by
    cases hpy : py016x n with
    | nil => rw [hpy] at hlen; simp at hlen
    | cons a l => rfl
  unfold pyIntHex
  rw [hne]
  simp only [Bool.false_eq_true, if_false]
  unfold py016x
  rw [parseHexAux_zeros]
  unfold toHexDigits
  by_cases h0 : n = 0
  · have hv : hexVal '0' = some 0 := by decide
    simp [h0, parseHexAux, hv]
  · rw [if_neg h0, parseHexAux_hexRev]
    simp

theorem from_hex_to_hex (i : MsgId) (hs : i.session < 2 ^ 64)
    (ho : i.object < 2 ^ 64) : MsgId.from_hex (MsgId.to_hex i) = .ok i := by
  have h16 : (2 : Nat) ^ 64 = 16 ^ 16 := by norm_num
  rw [h16] at hs ho
  unfold MsgId.from_hex MsgId.to_hex
  rw [List.take_left' (py016x_length i.session hs),
      List.drop_left' (py016x_length i.session hs),
      pyIntHex_py016x i.session hs, pyIntHex_py016x i.object ho]

theorem fromName_pyName (k : MessageKind) :
    MessageKind.fromName k.pyName = some k := by
  cases k <;> rfl

theorem jGet_wire_id (idv kv cv : JValue) :
    jGet (.obj [("id", idv), ("kind", kv), ("content", cv)]) "id" = .ok idv := rfl

theorem jGet_wire_kind (idv kv cv : JValue) :
    jGet (.obj [("id", idv), ("kind", kv), ("content", cv)]) "kind" = .ok kv := rfl

theorem jGet_wire_content (idv kv cv : JValue) :
    jGet (.obj [("id", idv), ("kind", kv), ("content", cv)]) "content" = .ok cv := rfl

/-- C3: for every `ProtocolMessage` — any kind, any `session_id` and
`object_id` in `[0, 2^64)`, and any string-to-string content map including
the empty map and null — serializing it to bytes and deserializing the
result yields a message equal to the original in all fields. -/
theorem toList_mk (l : List Char) : (String.mk l).toList = l := rfl

theorem asIdStr_str (s : String) : asIdStr (.str s) = .ok s.toList := rfl

/-- C3: for every `ProtocolMessage` — any kind, any `session_id` and
`object_id` in `[0, 2^64)`, and any string-to-string content map including
the empty map and null — serializing it to bytes and deserializing the
result yields a message equal to the original in all fields. -/
theorem claim_C3_roundtrip (m : Message) (hs : m.id.session < 2 ^ 64)
    (ho : m.id.object < 2 ^ 64) (_hc : contentOK m.content = true) :
    Message.from_bytes (Message.to_bytes m) = .ok m := by
  simp only [Message.to_bytes, dumps, Message.from_bytes, loads,
    jGet_wire_id, jGet_wire_kind, jGet_wire_content, asIdStr_str, toList_mk,
    from_hex_to_hex m.id hs ho, enumGetItem, fromName_pyName]

/-! ### Lemmas about deserialization failure modes -/

theorem loads_error {w : Wire} {e : PyExn} (h : loads w = .error e) :
    e = .jsonDecodeError := by
  cases w with
  | bad s => cases h; rfl
  | json j => cases h

theorem jGet_error {j : JValue} {k : String} {e : PyExn}
    (h : jGet j k = .error e) : e = .keyError k ∨ e = .typeError := by
  unfold jGet at h
  split at h
  · split at h
    · exact Except.noConfusion h
    · exact Or.inl (Except.error.inj h).symm
  · exact Or.inr (Except.error.inj h).symm

theorem asIdStr_error {j : JValue} {e : PyExn} (h : asIdStr j = .error e) :
    e = .typeError := by
  unfold asIdStr at h
  split at h
  · exact Except.noConfusion h
  · exact (Except.error.inj h).symm

theorem from_hex_error {cs : List Char} {e : PyExn}
    (h : MsgId.from_hex cs = .error e) : e = .valueError := by
  unfold MsgId.from_hex at h
  split at h
  · exact Except.noConfusion h
  · exact (Except.error.inj h).symm

theorem enumGetItem_error {j : JValue} {e : PyExn}
    (h : enumGetItem j = .error e) :
    (∃ s, e = .keyError s) ∨ e = .typeError := by
  unfold enumGetItem at h
  split at h
  · split at h
    · exact Except.noConfusion h
    · exact Or.inl ⟨_, (Except.error.inj h).symm⟩
  · exact Or.inl ⟨_, (Except.error.inj h).symm⟩
  · exact Or.inl ⟨_, (Except.error.inj h).symm⟩
  · exact Or.inr (Except.error.inj h).symm
  · exact Or.inr (Except.error.inj h).symm

/-- `_Message.from_bytes` can only raise `json.JSONDecodeError`, `KeyError`,
`TypeError` or `ValueError` — never `MessageFormatError`, which it does not
reference. -/
theorem from_bytes_never_MFE (w : Wire) :
    resultIsMFE (Message.from_bytes w) = false := by
  unfold Message.from_bytes
  split
  · next e hl => rw [loads_error hl]; rfl
  · next data hl =>
    split
    · next e h1 => rcases jGet_error h1 with h | h <;> rw [h] <;> rfl
    · next idv h1 =>
      split
      · next e h2 => rw [asIdStr_error h2]; rfl
      · next idChars h2 =>
        split
        · next e h3 => rw [from_hex_error h3]; rfl
        · next mid h3 =>
          split
          · next e h4 => rcases jGet_error h4 with h | h <;> rw [h] <;> rfl
          · next kv h4 =>
            split
            · next e h5 =>
              rcases enumGetItem_error h5 with ⟨s, h⟩ | h <;> rw [h] <;> rfl
            · next kind h5 =>
              split
              · next e h6 => rcases jGet_error h6 with h | h <;> rw [h] <;> rfl
              · next content h6 => rfl

/-- C4 (counterexample): the byte string `"not json"` is not a well-formed
serialized message, yet deserializing it raises the generic
`json.JSONDecodeError` — not `MessageFormatError` as the claim states. -/
theorem claim_C4_counterexample :
    Message.from_bytes (Wire.bad "not json") = .error .jsonDecodeError
    ∧ resultIsMFE (Message.from_bytes (Wire.bad "not json")) = false :=
  ⟨rfl, rfl⟩

/-- C4 (amended): deserializing input that is not a well-formed serialized
message propagates the underlying generic exception — `json.JSONDecodeError`
for invalid JSON, `KeyError` for a missing field or an unknown kind name,
`ValueError` for a malformed id string — and never raises
`MessageFormatError`, which `_Message.from_bytes` does not reference. -/
theorem claim_C4_amended :
    (∀ w : Wire, resultIsMFE (Message.from_bytes w) = false)
    ∧ (∀ s : String, Message.from_bytes (Wire.bad s) = .error .jsonDecodeError)
    ∧ Message.from_bytes (dumps (.obj [("kind", .str "ERROR"), ("content", .null)]))
        = .error (.keyError "id")
    ∧ Message.from_bytes (dumps (.obj
        [("id", .str "00000000000000000000000000000000"),
         ("kind", .str "JOIN"), ("content", .null)])) = .error (.keyError "JOIN")
    ∧ Message.from_bytes (dumps (.obj
        [("id", .str "zzzzzzzzzzzzzzzzzzzzzzzzzzzzzzzz"),
         ("kind", .str "ERROR"), ("content", .null)])) = .error .valueError :=
  ⟨from_bytes_never_MFE, fun _ => rfl, rfl, rfl, rfl⟩

/-- C10: for every `L7Error` value and every message string (including
`None`), `handle_error` returns normally: the exception it constructs for the
error category is caught by the function's own `except Exception` clause and
discarded, so no caller ever observes `NetworkConnectivityError`,
`MessageFormatError` or `ProtocolStateError` being raised from it. -/
theorem claim_C10_handle_error_swallows (e : L7Error) (m : Option String) :
    handle_error e m = .ok () := by
  cases e <;> rfl

/-! ### Concrete channels used as witness inputs -/

/-- An OFFLINE server-role channel as freshly constructed. -/
def sampleOffServer : Channel :=
  { url := "tcp://127.0.0.1:5555", role := .SERVER, state := .OFFLINE,
    topics := [], socketInit := false, session_id := none,
    last_message_id := none, self_id := 11, peer_id := none }

/-- An OFFLINE client-role channel as freshly constructed. -/
def sampleOffClient : Channel :=
  { url := "tcp://127.0.0.1:5555", role := .CLIENT, state := .OFFLINE,
    topics := [], socketInit := false, session_id := none,
    last_message_id := none, self_id := 12, peer_id := none }

/-- An ONLINE channel with an established session (`session_id = 7`,
`last_message_id = 3`) and the topic `"chat"` registered. -/
def sampleOnline : Channel :=
  { url := "tcp://127.0.0.1:5555", role := .CLIENT, state := .ONLINE,
    topics := [{ topic := "chat", inbox := true, outbox := true }],
    socketInit := true, session_id := some 7, last_message_id := some 3,
    self_id := 12, peer_id := some 9 }

/-- An ONLINE channel with no topics registered. -/
def sampleOnlineNoTopics : Channel :=
  { url := "tcp://127.0.0.1:5555", role := .CLIENT, state := .ONLINE,
    topics := [], socketInit := true, session_id := some 7,
    last_message_id := some 3, self_id := 12, peer_id := some 9 }

/-- A frame carrying session id 9 — not the session of `sampleOnline`. -/
def sampleForeignMsg : Message :=
  { id := { session := 9, object := 4 }, kind := .APPLICATION,
    content := .obj [("topic", .str "chat"), ("payload", .str "hi")] }

/-! ### Claim theorems about the channel state machine -/

/-- C1 (code bug): `setup()` can never complete a JOIN/ACKNOWLEDGE
handshake.  On an OFFLINE channel the SERVER branch raises `TypeError` inside
`__recv_message_from_peer` (the `self.state in (CHANNEL_STATE.OFFLINE)`
membership test against a bare enum member at line 301) and the CLIENT branch
raises `AttributeError` evaluating `_MessageKind.JOIN` (line 426, and again
line 325), so no pair of channels ever reaches ONLINE with a shared session
id. -/
theorem claim_C1_setup_always_fails (c : Channel) (fresh : Nat) (raw : Wire)
    (h : c.state = CHANNEL_STATE.OFFLINE) :
    (c.role = CHANNEL_ROLE.SERVER →
      (c.setup fresh raw).2.2 = .error .typeError)
    ∧ (c.role = CHANNEL_ROLE.CLIENT →
      (c.setup fresh raw).2.2 = .error (.attributeError "JOIN")) := by
  unfold Channel.setup
  rw [if_neg (by simp [h])]
  constructor <;> intro hr <;> rw [hr] <;> rfl

theorem claim_C1_witness :
    sampleOffServer.state = CHANNEL_STATE.OFFLINE
    ∧ sampleOffClient.state = CHANNEL_STATE.OFFLINE
    ∧ (sampleOffServer.setup 42 (Wire.bad "x")).2.2 = .error .typeError
    ∧ (sampleOffClient.setup 42 (Wire.bad "x")).2.2
        = .error (.attributeError "JOIN") :=
  ⟨rfl, rfl,
   (claim_C1_setup_always_fails sampleOffServer 42 (Wire.bad "x") rfl).1 rfl,
   (claim_C1_setup_always_fails sampleOffClient 42 (Wire.bad "x") rfl).2 rfl⟩

/-- C2 (code bug): no receive ever reaches the session or ordering checks and
no ERROR frame is ever sent.  `__recv_message_from_peer` raises `TypeError`
at its first statement (`self.state in (CHANNEL_STATE.OFFLINE)`, a
membership test against a bare enum member) before reading the socket, on
every channel in every state; and `__send_message_to_peer_and_recv_ack` —
the only place that synthesizes an ERROR frame for an ordering violation —
raises `AttributeError` evaluating `_MessageKind.JOIN` at line 325 before
sending anything. -/
theorem claim_C2_checks_unreachable (c : Channel) (raw : Wire) :
    c.recv_message_from_peer raw = .error .typeError
    ∧ ∀ (k : MessageKind) (cnt : JValue) (raw2 : Wire),
        c.send_message_to_peer_and_recv_ack k cnt raw2
          = .error (.attributeError "JOIN") :=
  ⟨rfl, fun _ _ _ => rfl⟩

/-- C5 (code bug): a message with a foreign session id received on an ONLINE
channel does not raise `UnknownSessionError`; the receive raises `TypeError`
at its first statement instead (`last_message_id` is indeed left unchanged —
the method assigns nothing — but the claimed exception is never produced). -/
theorem claim_C5_no_unknown_session_error (c : Channel) (raw : Wire)
    (_h : c.state = CHANNEL_STATE.ONLINE) :
    c.recv_message_from_peer raw = .error .typeError
    ∧ ∀ m : Message,
        c.recv_message_from_peer raw ≠ .error (.unknownSessionError m) := by
  refine ⟨rfl, fun m hm => ?_⟩
  rw [show c.recv_message_from_peer raw = .error .typeError from rfl] at hm
  exact PyExn.noConfusion (Except.error.inj hm)

theorem claim_C5_witness :
    sampleOnline.state = CHANNEL_STATE.ONLINE
    ∧ sampleOnline.session_id = some 7
    ∧ sampleForeignMsg.id.session = 9
    ∧ sampleOnline.recv_message_from_peer sampleForeignMsg.to_bytes
        = .error .typeError
    ∧ sampleOnline.recv_message_from_peer sampleForeignMsg.to_bytes
        ≠ .error (.unknownSessionError sampleForeignMsg) :=
  ⟨rfl, rfl, rfl,
   (claim_C5_no_unknown_session_error sampleOnline sampleForeignMsg.to_bytes rfl).1,
   (claim_C5_no_unknown_session_error sampleOnline sampleForeignMsg.to_bytes rfl).2
     sampleForeignMsg⟩

/-- C6 (code bug): `register(topic)` can never perform its wire exchange nor
record a topic.  With no topics yet recorded the duplicate check passes (the
`any` generator is empty) but the `TOPIC_REGISTER` exchange raises
`AttributeError` at line 325 (`_MessageKind.JOIN`) before any frame is sent,
so the topic is never appended; and if the topic list were nonempty the
duplicate check itself would raise `TypeError` (`t["topic"]` subscripts a
NamedTuple with a string).  Hence the "second call" of the claim can never be
observed, and no call is idempotent-successful. -/
theorem claim_C6_register_always_fails (c : Channel) (topic : String)
    (raw : Wire) (h : c.state = CHANNEL_STATE.ONLINE) :
    (c.topics = [] → c.register topic raw = .error (.attributeError "JOIN"))
    ∧ (c.topics ≠ [] → c.register topic raw = .error .typeError) := by
  constructor <;> intro ht <;> unfold Channel.register <;>
    rw [if_neg (by simp [h])]
  · rw [ht]; rfl
  · cases hx : c.topics with
    | nil => exact absurd hx ht
    | cons a l => rfl

theorem claim_C6_witness :
    sampleOnlineNoTopics.state = CHANNEL_STATE.ONLINE
    ∧ sampleOnlineNoTopics.topics = []
    ∧ sampleOnlineNoTopics.register "chat" (Wire.bad "x")
        = .error (.attributeError "JOIN")
    ∧ sampleOnline.state = CHANNEL_STATE.ONLINE
    ∧ sampleOnline.topics ≠ []
    ∧ sampleOnline.register "chat" (Wire.bad "x") = .error .typeError :=
  ⟨rfl, rfl,
   (claim_C6_register_always_fails sampleOnlineNoTopics "chat" (Wire.bad "x") rfl).1 rfl,
   rfl, by simp [sampleOnline],
   (claim_C6_register_always_fails sampleOnline "chat" (Wire.bad "x") rfl).2
     (by simp [sampleOnline])⟩

/-- C7 (code bug): on an ONLINE channel with a registered topic, `publish`
does not return the outbound queue — it raises `AttributeError`, because the
`Channel` dataclass declares no `__outboxes` attribute and nothing ever
assigns one — and `subscribe` returns `None` (its body is the bare `...`
expression), not the inbound queue. -/
theorem claim_C7_publish_subscribe_broken (c : Channel) (t : String)
    (h : c.state = CHANNEL_STATE.ONLINE)
    (_hreg : t ∈ c.topics.map TopicRec.topic) :
    c.publish t = .error (.attributeError "_Channel__outboxes")
    ∧ c.subscribe t = .ok none := by
  constructor
  · unfold Channel.publish
    rw [if_neg (by simp [h])]
  · unfold Channel.subscribe
    rw [if_neg (by simp [h])]

theorem claim_C7_witness :
    sampleOnline.state = CHANNEL_STATE.ONLINE
    ∧ "chat" ∈ sampleOnline.topics.map TopicRec.topic
    ∧ sampleOnline.publish "chat" = .error (.attributeError "_Channel__outboxes")
    ∧ sampleOnline.subscribe "chat" = .ok none :=
  ⟨rfl, by simp [sampleOnline],
   (claim_C7_publish_subscribe_broken sampleOnline "chat" rfl
     (by simp [sampleOnline])).1,
   (claim_C7_publish_subscribe_broken sampleOnline "chat" rfl
     (by simp [sampleOnline])).2⟩

/-- C8 (counterexample): `teardown()` on the OFFLINE channel `sampleOffServer`
fails with `AssertionError` — not the `WrongStateError` the claim names —
while sending nothing and leaving the channel record unchanged. -/
theorem claim_C8_counterexample :
    sampleOffServer.teardown (Wire.bad "x")
      = (sampleOffServer, [], .error .assertionError)
    ∧ PyExn.assertionError ≠ PyExn.wrongStateError :=
  ⟨rfl, by intro hx; exact PyExn.noConfusion hx⟩

/-- C8 (amended): for every channel whose state is OFFLINE, `teardown()`
fails with `AssertionError` (the `assert self.state == CHANNEL_STATE.ONLINE`
at line 437, not `WrongStateError`), performs no network I/O — no frame is
sent, nothing is received, the socket is not closed — and leaves the channel
state unchanged. -/
theorem claim_C8_amended (c : Channel) (raw : Wire)
    (h : c.state = CHANNEL_STATE.OFFLINE) :
    c.teardown raw = (c, [], .error .assertionError) := by
  unfold Channel.teardown
  rw [if_pos (by simp [h])]

theorem claim_C8_witness :
    sampleOffClient.state = CHANNEL_STATE.OFFLINE
    ∧ sampleOffClient.teardown (Wire.bad "y")
        = (sampleOffClient, [], .error .assertionError) :=
  ⟨rfl, claim_C8_amended sampleOffClient (Wire.bad "y") rfl⟩

/-! ### Lemmas about the session-id generator -/

theorem generate_session_id_none {draws used : List Nat}
    (h : ∀ d ∈ draws, d ∈ used) : generate_session_id draws used = none := by
  induction draws with
  | nil => rfl
  | cons d ds ih =>
    unfold generate_session_id
    rw [if_pos (h d (by simp))]
    exact ih (fun x hx => h x (by simp [hx]))

theorem generate_session_id_spec {draws used : List Nat}
    {id : Nat} {ds used' : List Nat}
    (h : generate_session_id draws used = some (id, ds, used')) :
    id ∉ used ∧ used' = id :: used ∧ id ∈ draws ∧ ∀ x ∈ ds, x ∈ draws := by
  induction draws with
  | nil => cases h
  | cons d rest ih =>
    unfold generate_session_id at h
    by_cases hd : d ∈ used
    · rw [if_pos hd] at h
      obtain ⟨h1, h2, h3, h4⟩ := ih h
      exact ⟨h1, h2, by simp [h3], fun x hx => by simp [h4 x hx]⟩
    · rw [if_neg hd] at h
      cases h
      exact ⟨hd, rfl, by simp, fun x hx => by simp [hx]⟩

theorem run_session_calls_spec (n : Nat) : ∀ (draws used ids u : List Nat),
    run_session_calls n draws used = some (ids, u) →
    ids.length = n ∧ ids.Nodup ∧ ∀ i ∈ ids, i ∉ used ∧ i ∈ draws := by
  induction n with
  | zero =>
    intro draws used ids u h
    cases h
    exact ⟨rfl, List.nodup_nil, by simp⟩
  | succ n ih =>
    intro draws used ids u h
    unfold run_session_calls at h
    cases hg : generate_session_id draws used with
    | none => rw [hg] at h; cases h
    | some r =>
      obtain ⟨id, ds, used'⟩ := r
      rw [hg] at h
      have h' : (match run_session_calls n ds used' with
                 | none => none
                 | some (ids', u') => some (id :: ids', u')) = some (ids, u) := h
      cases hr : run_session_calls n ds used' with
      | none => rw [hr] at h'; cases h'
      | some r2 =>
        obtain ⟨ids', u'⟩ := r2
        rw [hr] at h'
        cases h'
        obtain ⟨hid_used, hused', hid_draws, hds⟩ := generate_session_id_spec hg
        obtain ⟨hlen, hnodup, hmem⟩ := ih _ _ _ _ hr
        subst hused'
        refine ⟨by simp [hlen], ?_, ?_⟩
        · rw [List.nodup_cons]
          refine ⟨fun hin => ?_, hnodup⟩
          have := (hmem id hin).1
          simp at this
        · intro i hi
          rcases List.mem_cons.mp hi with rfl | hi'
          · exact ⟨hid_used, hid_draws⟩
          · have ⟨h1, h2⟩ := hmem i hi'
            exact ⟨fun hc => h1 (by simp [hc]), hds i h2⟩

theorem run_session_calls_10000 (draws used : List Nat)
    (hd : ∀ d ∈ draws, d < 1024) :
    run_session_calls 10000 draws used = none := by
  cases hr : run_session_calls 10000 draws used with
  | none => rfl
  | some r =>
    obtain ⟨ids, u⟩ := r
    obtain ⟨hlen, hnodup, hmem⟩ := run_session_calls_spec 10000 draws used ids u hr
    have hsub : ids.toFinset ⊆ Finset.range 1024 := by
      intro x hx
      rw [List.mem_toFinset] at hx
      exact Finset.mem_range.mpr (hd x (hmem x hx).2)
    have hcard := Finset.card_le_card hsub
    rw [List.toFinset_card_of_nodup hnodup, Finset.card_range, hlen] at hcard
    omega

/-- C9 (counterexample): once the 10-bit identifier space is exhausted the
retry loop cannot terminate — with every one of the 1024 possible draw values
already used, `generate_session_id` rejects the complete space of draws — and
consequently no random stream whatever lets 10,000 consecutive calls all
return. -/
theorem claim_C9_counterexample :
    generate_session_id (List.range 1024) (List.range 1024) = none
    ∧ run_session_calls 10000 (List.range 1024 ++ List.range 1024) [] = none :=
  ⟨generate_session_id_none (fun _ hd => hd),
   run_session_calls_10000 _ _ (by
     intro d hd
     rcases List.mem_append.mp hd with h | h <;> exact List.mem_range.mp h)⟩

/-- C9 (amended): every `generate_session_id` call that returns yields a
fresh value — for draws from `randbelow(1024)` the results of a run are
pairwise distinct, in `[0, 1024)` and disjoint from the initial used set —
but at most 1024 calls can ever succeed: a run of 10,000 consecutive calls
can never complete, because after exhaustion the `while True` loop rejects
every draw forever (exhaustion is an unbounded loop, not a defined
failure). -/
theorem claim_C9_bounded_uniqueness (draws used : List Nat)
    (hd : ∀ d ∈ draws, d < 1024) :
    run_session_calls 10000 draws used = none
    ∧ ∀ (n : Nat) (ids u : List Nat),
        run_session_calls n draws used = some (ids, u) →
        ids.Nodup ∧ ∀ i ∈ ids, i < 1024 ∧ i ∉ used :=
  ⟨run_session_calls_10000 draws used hd,
   fun n ids u h =>
     have hs := run_session_calls_spec n draws used ids u h
     ⟨hs.2.1, fun i hi => ⟨hd i (hs.2.2 i hi).2, (hs.2.2 i hi).1⟩⟩⟩

theorem claim_C9_witness :
    (∀ d ∈ [3, 5, 7], d < 1024)
    ∧ run_session_calls 10000 [3, 5, 7] [3] = none
    ∧ (run_session_calls 2 [3, 5, 7] [3] = some ([5, 7], [7, 5, 3]) →
        [5, 7].Nodup ∧ ∀ i ∈ [5, 7], i < 1024 ∧ i ∉ [3]) :=
  ⟨by decide,
   (claim_C9_bounded_uniqueness [3, 5, 7] [3] (by decide)).1,
   (claim_C9_bounded_uniqueness [3, 5, 7] [3] (by decide)).2 2 [5, 7] [7, 5, 3]⟩

/-- A concrete message exercising the round trip: a boundary 64-bit object
id and a nonempty string-to-string content map. -/
def sampleRoundtripMsg : Message :=
  { id := { session := 7, object := 18446744073709551615 },
    kind := .ACKNOWLEDGE,
    content := .obj [("topic", .str "chat"), ("payload", .str "hi")] }

theorem claim_C3_witness :
    sampleRoundtripMsg.id.session < 2 ^ 64
    ∧ sampleRoundtripMsg.id.object < 2 ^ 64
    ∧ contentOK sampleRoundtripMsg.content = true
    ∧ Message.from_bytes (Message.to_bytes sampleRoundtripMsg)
        = .ok sampleRoundtripMsg :=
  ⟨by norm_num [sampleRoundtripMsg], by norm_num [sampleRoundtripMsg], rfl,
   claim_C3_roundtrip sampleRoundtripMsg (by norm_num [sampleRoundtripMsg])
     (by norm_num [sampleRoundtripMsg]) rfl⟩
